import Mathlib

/-!
Verification of the besties-craft backend order/auth/catalog handlers
(src/server.py) against its natural-language specification. The Python
handlers are shallowly embedded: the Mongo collections become lists of
records inside a `DB` state, `datetime.utcnow()` and generated ids become
explicit parameters, Python floats become exact rationals, and a raised
exception becomes an `Except` error value. Each handler keeps the source's
try/except structure: an inner body that may fail with either an
`HTTPException` or an arbitrary runtime exception, wrapped by the boundary
that re-raises the former and converts the latter to a 500 response.
-/

namespace BestiesCraft

/-- Python `int()` applied to an exact rational: truncation toward zero. -/
def pyInt (q : ℚ) : Int := if 0 ≤ q then ⌊q⌋ else ⌈q⌉

/-- Python truthiness of an optional string: `None` and `""` are falsy. -/
def pyTruthy : Option String → Bool
  | none => false
  | some s => s != ""

/-- Embedding of Python `str.strip()`: drop leading and trailing
whitespace. -/
def pyStrip (s : String) : String :=
  ⟨((s.data.dropWhile Char.isWhitespace).reverse.dropWhile
    Char.isWhitespace).reverse⟩

/-- Embedding of `bson.ObjectId` validation: a 24-character hex string is
accepted, anything else raises (callers turn that into a 400 error). -/
def isValidObjectId (s : String) : Bool :=
  s.data.length == 24 &&
    s.data.all (fun c => c.isDigit ||
      (0x61 ≤ c.toNat && c.toNat ≤ 0x66) || (0x41 ≤ c.toNat && c.toNat ≤ 0x46))

/-- An `HTTPException(status_code, detail)` value. -/
structure HTTPError where
  status : Nat
  detail : String
deriving DecidableEq

/-- A failure inside a handler try-block: either an `HTTPException`, or an
arbitrary runtime exception carrying its message. -/
inductive PyError where
  | http (e : HTTPError)
  | exc (msg : String)
deriving DecidableEq

/-- The `except HTTPException: raise` / `except Exception as e:
raise HTTPException(500, str(e))` pattern closing every handler body. -/
def handlerBoundary : Except PyError α → Except PyError α
  | .ok a => .ok a
  | .error (.http e) => .error (.http e)
  | .error (.exc m) => .error (.http ⟨500, m⟩)

/-- True when a handler result is either a success or an `HTTPException`;
false only on an escaped raw exception. -/
def isHttpHandled : Except PyError α → Bool
  | .error (.exc _) => false
  | _ => true

/-- The 503 raised by `check_db_connection` when the Mongo client is down. -/
def dbUnavailable : HTTPError :=
  ⟨503, "Database connection failed. Please try again later."⟩

/-! Documents of the Mongo collections. A field that may be absent from a
document is an `Option`; `Option.getD` embeds `dict.get(key, default)`. -/

/-- One entry of a product's `skus` array. -/
structure Sku where
  sku : String
  price : ℚ
  stock : Option Int
  weight : Option ℚ
deriving DecidableEq

/-- A document of the `products` collection (`_id` kept as its hex string). -/
structure ProductDoc where
  id : String
  name : String
  base_price : Option ℚ
  category : Option String
  brand : Option String
  rating : ℚ
  reviews_count : Int
  createdAt : Nat
  stock : Option Int
  skus : List Sku
deriving DecidableEq

/-- The `CartItem` pydantic model: `product_id`, `quantity`,
`selected_variants`. It has no price field. -/
structure CartItem where
  product_id : String
  quantity : Int
  selected_variants : Option (List (String × String))
deriving DecidableEq

/-- A raw JSON cart item as a client may send it, including a caller-supplied
`price` key. Parsing into `CartItem` drops every key that is not a model
field, which is how pydantic treats unknown keys. -/
structure RawCartItem where
  product_id : String
  quantity : Int
  selected_variants : Option (List (String × String))
  price : Option ℚ
deriving DecidableEq

/-- Pydantic parsing of a raw cart item: the caller-supplied price is not a
field of the `CartItem` model and is discarded. -/
def CartItem.parse (r : RawCartItem) : CartItem :=
  ⟨r.product_id, r.quantity, r.selected_variants⟩

/-- The `Order` pydantic request model of POST /api/orders. -/
structure OrderReq where
  user_id : String
  items : List CartItem
  shipping_address : List (String × String)
  billing_address : Option (List (String × String))
  payment_method : String
deriving DecidableEq

/-- A raw order-create body whose items may carry caller-supplied prices. -/
structure RawOrderReq where
  user_id : String
  items : List RawCartItem
  shipping_address : List (String × String)
  billing_address : Option (List (String × String))
  payment_method : String
deriving DecidableEq

/-- Pydantic parsing of the order-create body. -/
def OrderReq.parse (r : RawOrderReq) : OrderReq :=
  ⟨r.user_id, r.items.map CartItem.parse, r.shipping_address,
   r.billing_address, r.payment_method⟩

/-- Rewrite the caller-supplied price of every item of a raw order body. -/
def RawOrderReq.setPrices (r : RawOrderReq) (f : RawCartItem → Option ℚ) :
    RawOrderReq :=
  { r with items := r.items.map (fun it => { it with price := f it }) }

/-- A document of the `orders` collection, as assembled by `create_order`
and mutated by `verify_payment` / `update_order_status`. -/
structure OrderDoc where
  id : String
  user_id : String
  items : List CartItem
  shipping_address : List (String × String)
  billing_address : Option (List (String × String))
  payment_method : String
  status : String
  createdAt : Nat
  total_amount : ℚ
  paidAt : Option Nat
  updatedAt : Option Nat
deriving DecidableEq

/-- A document of the `otps` collection. -/
structure OtpDoc where
  oid : Nat
  identifier : String
  login_method : String
  otp : String
  createdAt : Nat
  expiresAt : Nat
deriving DecidableEq

/-- A document of the `users` collection. -/
structure UserDoc where
  id : String
  email : Option String
  phone : Option String
  lastLogin : Nat
deriving DecidableEq

/-- A document of the `reviews` collection. -/
structure ReviewDoc where
  id : String
  product_id : String
  rating : ℚ
  comment : String
deriving DecidableEq

/-- The database state: the Mongo collections the embedded handlers touch,
plus the connection flag checked by `check_db_connection`. -/
structure DB where
  connected : Bool
  products : List ProductDoc
  orders : List OrderDoc
  otps : List OtpDoc
  users : List UserDoc
  reviews : List ReviewDoc
deriving DecidableEq

/-- Mongo `update_one`: apply `f` to the first element matching `p`;
`none` models `matched_count == 0`. -/
def updateFirst (p : α → Bool) (f : α → α) : List α → Option (List α)
  | [] => none
  | x :: xs => if p x then some (f x :: xs) else (updateFirst p f xs).map (x :: ·)

/-! The verify-payment handler (POST /api/orders/verify-payment). -/

/-- The request body of verify-payment as the handler reads it. The handler
only ever reads `order_id`; the gateway payment id and signature are never
inspected. -/
structure PaymentData where
  order_id : Option String
  razorpay_payment_id : Option String
  razorpay_signature : Option String
deriving DecidableEq

/-- The verify-payment success response: a bare success message, carrying no
order identifier. -/
structure VerifyResp where
  success : Bool
  message : String
deriving DecidableEq

/-- The status/paidAt overwrite applied by verify-payment. -/
def markPaid (now : Nat) (o : OrderDoc) : OrderDoc :=
  { o with status := "completed", paidAt := some now }

/-- Body of `verify_payment` (src/server.py lines 1480-1501): parse the order
id as an ObjectId (400 on failure, also when the key is missing), set the
matching order's status to "completed" with a paidAt stamp (404 when no
order matches), and report success. No signature is checked and no document
is inserted or deleted. `fault` injects an arbitrary runtime exception
inside the try-block. -/
def verify_payment_body (payment_data : PaymentData) (now : Nat)
    (fault : Option String) (db : DB) : Except PyError VerifyResp × DB :=
  match fault with
  | some m => (.error (.exc m), db)
  | none =>
    match payment_data.order_id with
    | none => (.error (.http ⟨400, "Invalid order ID"⟩), db)
    | some oid =>
      if isValidObjectId oid then
        match updateFirst (fun o => o.id == oid) (markPaid now) db.orders with
        | none => (.error (.http ⟨404, "Order not found"⟩), db)
        | some orders =>
          (.ok ⟨true, "Payment verified successfully"⟩, { db with orders := orders })
      else (.error (.http ⟨400, "Invalid order ID"⟩), db)

/-- The verify-payment handler: `check_db_connection`, then the body behind
the try/except boundary. -/
def verify_payment (payment_data : PaymentData) (now : Nat)
    (fault : Option String) (db : DB) : Except PyError VerifyResp × DB :=
  if db.connected = false then (.error (.http dbUnavailable), db)
  else
    let r := verify_payment_body payment_data now fault db
    (handlerBoundary r.1, r.2)

/-! The order-create handler (POST /api/orders). -/

/-- The `razorpay_order` block of the order-create response. -/
structure RazorpayOrder where
  id : String
  amount : Int
deriving DecidableEq

/-- The order-create success response. -/
structure CreateOrderResp where
  success : Bool
  message : String
  order : OrderDoc
  razorpay_order : RazorpayOrder
deriving DecidableEq

/-- One turn of the pricing loop of `create_order` (src/server.py lines
1443-1450): look the product up by ObjectId and take `base_price * quantity`
from the catalog. The loop body sits in a bare `except:`, so every failure in
it — an invalid ObjectId, and also the 404 raised for a missing product —
surfaces as 400 "Invalid product in order". -/
def resolveItemPrice (products : List ProductDoc) (item : CartItem) :
    Except PyError ℚ :=
  if isValidObjectId item.product_id then
    match products.find? (fun p => p.id == item.product_id) with
    | some p => .ok ((p.base_price.getD 0) * (item.quantity : ℚ))
    | none => .error (.http ⟨400, "Invalid product in order"⟩)
  else .error (.http ⟨400, "Invalid product in order"⟩)

/-- The order total accumulated by the pricing loop: the sum of catalog
unit price times quantity, stopping at the first bad item. -/
def computeTotal (products : List ProductDoc) : List CartItem → Except PyError ℚ
  | [] => .ok 0
  | item :: rest =>
    match resolveItemPrice products item with
    | .error e => .error e
    | .ok q =>
      match computeTotal products rest with
      | .error e => .error e
      | .ok t => .ok (q + t)

/-- The catalog-side total: the sum over items of the current catalog unit
price times quantity (missing products priced 0; the handler errors on them
before this matters). -/
def catalogTotal (products : List ProductDoc) : List CartItem → ℚ
  | [] => 0
  | it :: rest =>
    (match products.find? (fun p => p.id == it.product_id) with
     | some p => p.base_price.getD 0
     | none => 0) * (it.quantity : ℚ) + catalogTotal products rest

/-- The order document `create_order` assembles before inserting it: the
request fields plus status "pending", the creation time and the
catalog-derived total. -/
def mkOrderDoc (order : OrderReq) (now : Nat) (newId : String) (total : ℚ) :
    OrderDoc :=
  { id := newId, user_id := order.user_id, items := order.items,
    shipping_address := order.shipping_address,
    billing_address := order.billing_address,
    payment_method := order.payment_method,
    status := "pending", createdAt := now, total_amount := total,
    paidAt := none, updatedAt := none }

/-- Body of `create_order` (src/server.py lines 1433-1467): require an
authorization header, price every item from the catalog, insert the order
with status "pending", and return it together with a gateway order whose
amount is `int(total * 100)`. -/
def create_order_body (order : OrderReq) (authorization : Option String)
    (now : Nat) (newId : String) (fault : Option String) (db : DB) :
    Except PyError CreateOrderResp × DB :=
  match fault with
  | some m => (.error (.exc m), db)
  | none =>
    if pyTruthy authorization = false then
      (.error (.http ⟨401, "Unauthorized"⟩), db)
    else
      match computeTotal db.products order.items with
      | .error e => (.error e, db)
      | .ok total =>
        (.ok { success := true, message := "Order created successfully",
               order := mkOrderDoc order now newId total,
               razorpay_order :=
                 { id := "order_" ++ newId, amount := pyInt (total * 100) } },
         { db with orders := db.orders ++ [mkOrderDoc order now newId total] })

/-- The order-create handler: `check_db_connection`, then the body behind
the try/except boundary. -/
def create_order (order : OrderReq) (authorization : Option String)
    (now : Nat) (newId : String) (fault : Option String) (db : DB) :
    Except PyError CreateOrderResp × DB :=
  if db.connected = false then (.error (.http dbUnavailable), db)
  else
    let r := create_order_body order authorization now newId fault db
    (handlerBoundary r.1, r.2)

/-! The admin order-status update handler (PUT /api/admin/orders/id). -/

/-- The status-update request body. -/
structure StatusData where
  status : Option String
deriving DecidableEq

/-- A bare success/message response. -/
structure MessageResp where
  success : Bool
  message : String
deriving DecidableEq

/-- Body of `update_order_status` (src/server.py lines 1540-1570): admin
token gate, ObjectId parse, then an unvalidated overwrite of the order's
status with whatever string the caller supplied. -/
def update_order_status_body (order_id : String) (status_data : StatusData)
    (admin_token : Option String) (adminTokenEnv : String) (now : Nat)
    (fault : Option String) (db : DB) : Except PyError MessageResp × DB :=
  match fault with
  | some m => (.error (.exc m), db)
  | none =>
    if admin_token != some adminTokenEnv then
      (.error (.http ⟨401, "Unauthorized"⟩), db)
    else if isValidObjectId order_id = false then
      (.error (.http ⟨400, "Invalid order ID"⟩), db)
    else
      match status_data.status with
      | none => (.error (.http ⟨400, "Status is required"⟩), db)
      | some s =>
        if s == "" then (.error (.http ⟨400, "Status is required"⟩), db)
        else
          match updateFirst (fun o => o.id == order_id)
              (fun o => { o with status := s, updatedAt := some now }) db.orders with
          | none => (.error (.http ⟨404, "Order not found"⟩), db)
          | some orders =>
            (.ok ⟨true, "Order status updated to " ++ s⟩,
             { db with orders := orders })

/-- The status-update handler: `check_db_connection`, then the body behind
the try/except boundary. -/
def update_order_status (order_id : String) (status_data : StatusData)
    (admin_token : Option String) (adminTokenEnv : String) (now : Nat)
    (fault : Option String) (db : DB) : Except PyError MessageResp × DB :=
  if db.connected = false then (.error (.http dbUnavailable), db)
  else
    let r := update_order_status_body order_id status_data admin_token
      adminTokenEnv now fault db
    (handlerBoundary r.1, r.2)

/-! The OTP authentication handlers (POST /api/auth/send-otp and
POST /api/auth/verify-otp). -/

/-- The request body shared by the two OTP endpoints. -/
structure OtpReq where
  email : Option String
  phone : Option String
  otp : Option String
deriving DecidableEq

/-- The identifier an OTP request resolves to: the email when truthy,
else the phone (`identifier = email if email else phone`). -/
def otpIdentifier (data : OtpReq) : Option String :=
  if pyTruthy data.email then data.email else data.phone

/-- The send-otp success response. -/
structure SendOtpResp where
  success : Bool
  message : String
  identifier : String
deriving DecidableEq

/-- Body of `send_otp` (src/server.py lines 1264-1317): resolve the
identifier, delete every stored OTP record for it, and insert the freshly
generated one with a 600-second expiry. The email/SMS delivery outcome only
logs a warning and does not change the response, so it is not modelled. The
generated OTP and the new record's id are passed in, modelling the RNG and
Mongo id assignment. -/
def send_otp_body (data : OtpReq) (now : Nat) (otp : String) (newOid : Nat)
    (fault : Option String) (db : DB) : Except PyError SendOtpResp × DB :=
  match fault with
  | some m => (.error (.exc m), db)
  | none =>
    if !pyTruthy data.email && !pyTruthy data.phone then
      (.error (.http ⟨400, "Missing email or phone"⟩), db)
    else
      let identifier := (otpIdentifier data).getD ""
      let login_method := if pyTruthy data.email then "email" else "phone"
      let newRec : OtpDoc :=
        ⟨newOid, identifier, login_method, otp, now, now + 600⟩
      (.ok ⟨true, "OTP sent to your " ++ login_method, identifier⟩,
       { db with otps :=
          (db.otps.filter (fun r => r.identifier != identifier)) ++ [newRec] })

/-- The send-otp handler: `check_db_connection`, then the body behind the
try/except boundary. -/
def send_otp (data : OtpReq) (now : Nat) (otp : String) (newOid : Nat)
    (fault : Option String) (db : DB) : Except PyError SendOtpResp × DB :=
  if db.connected = false then (.error (.http dbUnavailable), db)
  else
    let r := send_otp_body data now otp newOid fault db
    (handlerBoundary r.1, r.2)

/-- The user block of the verify-otp success response. -/
structure VerifyOtpUser where
  id : Option String
  email : Option String
  phone : Option String
deriving DecidableEq

/-- The verify-otp success response. -/
structure VerifyOtpResp where
  success : Bool
  message : String
  token : String
  user : VerifyOtpUser
deriving DecidableEq

/-- The session token minted on login. In the source it is the SHA-256 hex
digest of user id, identifier and timestamp; the digest is abstracted here
as a tagged encoding of that same preimage, since no claim depends on the
digest value. -/
def mkToken (user_id identifier : String) (now : Nat) : String :=
  "sha256:" ++ user_id ++ ":" ++ identifier ++ ":" ++ toString now

/-- The user-document predicate of the login upsert
(`users.update_one(login_method: identifier, ..., upsert=True)`). -/
def matchesLogin (login_method identifier : String) (u : UserDoc) : Bool :=
  if login_method == "email" then u.email == some identifier
  else u.phone == some identifier

/-- Body of `verify_otp` (src/server.py lines 1330-1385): find the stored
OTP record for the identifier (401 "OTP not found or expired" when absent),
delete it and 401 when expired, 401 on a mismatched code, and on a match
delete the record, upsert the user, and return a login token. `newUserId`
models the Mongo id assigned when the upsert inserts. -/
def verify_otp_body (data : OtpReq) (now : Nat) (newUserId : String)
    (fault : Option String) (db : DB) : Except PyError VerifyOtpResp × DB :=
  match fault with
  | some m => (.error (.exc m), db)
  | none =>
    let otp_entered := pyStrip (data.otp.getD "")
    let login_method := if pyTruthy data.email then "email" else "phone"
    if !pyTruthy (otpIdentifier data) || otp_entered == "" then
      (.error (.http ⟨400, "Missing email/phone or OTP"⟩), db)
    else
      let identifier := (otpIdentifier data).getD ""
      match db.otps.find? (fun r => r.identifier == identifier) with
      | none => (.error (.http ⟨401, "OTP not found or expired"⟩), db)
      | some r =>
        if r.expiresAt < now then
          (.error (.http ⟨401, "OTP has expired"⟩),
           { db with otps := db.otps.eraseP (fun x => x.oid == r.oid) })
        else if r.otp != otp_entered then
          (.error (.http ⟨401, "Invalid OTP"⟩), db)
        else
          let otps := db.otps.eraseP (fun x => x.oid == r.oid)
          let setUser : UserDoc → UserDoc := fun u =>
            if login_method == "email" then
              { u with email := some identifier, lastLogin := now }
            else { u with phone := some identifier, lastLogin := now }
          let users :=
            match updateFirst (matchesLogin login_method identifier) setUser
                db.users with
            | some us => us
            | none => db.users ++
                [{ id := newUserId,
                   email := if login_method == "email" then some identifier else none,
                   phone := if login_method == "phone" then some identifier else none,
                   lastLogin := now }]
          let user_id := (users.find? (matchesLogin login_method identifier)).map
            (fun u => u.id)
          (.ok { success := true, message := "Login successful",
                 token := mkToken (user_id.getD "None") identifier now,
                 user := { id := user_id,
                           email := if login_method == "email" then data.email else none,
                           phone := if login_method == "phone" then data.phone else none } },
           { db with otps := otps, users := users })

/-- The verify-otp handler: `check_db_connection`, then the body behind the
try/except boundary. -/
def verify_otp (data : OtpReq) (now : Nat) (newUserId : String)
    (fault : Option String) (db : DB) : Except PyError VerifyOtpResp × DB :=
  if db.connected = false then (.error (.http dbUnavailable), db)
  else
    let r := verify_otp_body data now newUserId fault db
    (handlerBoundary r.1, r.2)

/-! The public catalog handlers (GET /api/products and
GET /api/products/product_id). -/

/-- The customer-facing stock block computed by `get_stock_status`
(src/server.py lines 480-506). -/
structure StockStatus where
  status : String
  display : String
  in_stock : Bool
  is_low : Bool
deriving DecidableEq

/-- Embedding of `get_stock_status`: collapse a stock count to a
customer-friendly status without exposing the number. -/
def get_stock_status (stock : Int) : StockStatus :=
  if stock ≤ 0 then ⟨"Out of Stock", "Out of Stock", false, false⟩
  else if stock ≤ 3 then ⟨"Low Stock", "Low Stock - Hurry!", true, true⟩
  else ⟨"In Stock", "In Stock", true, false⟩

/-- The total stock the handlers derive from a product's SKUs:
`sum(sku.get("stock", 0))`. -/
def totalStock (p : ProductDoc) : Int :=
  (p.skus.map (fun s => s.stock.getD 0)).sum

/-- A product as the catalog endpoints return it. `stock` on the product
and on each SKU is `none`, modelling the popped key; the single-product
endpoint additionally attaches `reviews`. -/
structure FormattedProduct where
  id : String
  name : String
  base_price : Option ℚ
  category : Option String
  brand : Option String
  rating : ℚ
  reviews_count : Int
  createdAt : Nat
  stock : Option Int
  skus : List Sku
  stock_status : StockStatus
  in_stock : Bool
  reviews : Option (List ReviewDoc)
deriving DecidableEq

/-- The per-product response formatting shared by both catalog endpoints
(src/server.py lines 921-942 and 972-987): derive the stock status from the
summed SKU stocks, then pop the product-level and SKU-level stock keys. -/
def formatProduct (p : ProductDoc) : FormattedProduct :=
  let ss := get_stock_status (totalStock p)
  { id := p.id, name := p.name, base_price := p.base_price,
    category := p.category, brand := p.brand, rating := p.rating,
    reviews_count := p.reviews_count, createdAt := p.createdAt,
    stock := none,
    skus := p.skus.map (fun s => { s with stock := none }),
    stock_status := ss, in_stock := ss.in_stock, reviews := none }

/-- The Mongo query filter of GET /api/products: equality on `category`
and `brand` when those query parameters are present. -/
def matchesQuery (category brand : Option String) (p : ProductDoc) : Bool :=
  (match category with | none => true | some c => p.category == some c) &&
  (match brand with | none => true | some b => p.brand == some b)

/-- The sort comparator of GET /api/products (`sort_map`, unknown keys
falling back to newest-first). -/
def sortKeyLe (sort : String) (a b : ProductDoc) : Bool :=
  if sort == "price_low" then decide ((a.base_price.getD 0) ≤ (b.base_price.getD 0))
  else if sort == "price_high" then decide ((b.base_price.getD 0) ≤ (a.base_price.getD 0))
  else if sort == "rating" then decide (b.rating ≤ a.rating)
  else if sort == "popular" then decide (b.reviews_count ≤ a.reviews_count)
  else decide (b.createdAt ≤ a.createdAt)

/-- Insert into a sorted list under a boolean comparator. -/
def insertLe (le : α → α → Bool) (x : α) : List α → List α
  | [] => [x]
  | y :: ys => if le x y then x :: y :: ys else y :: insertLe le x ys

/-- Insertion sort under a boolean comparator, embedding the Mongo
cursor sort. -/
def sortLe (le : α → α → Bool) : List α → List α
  | [] => []
  | x :: xs => insertLe le x (sortLe le xs)

/-- The product-list response. -/
structure ProductsResp where
  success : Bool
  count : Nat
  products : List FormattedProduct
deriving DecidableEq

/-- The `get_products` handler (src/server.py lines 890-951): filter, sort,
and format every product, hiding exact stock counts. Its try-block has no
HTTPException re-raise arm, but the boundary behaves identically on it. -/
def get_products (category brand : Option String) (sort : String)
    (fault : Option String) (db : DB) : Except PyError ProductsResp :=
  if db.connected = false then .error (.http dbUnavailable)
  else
    handlerBoundary
      (match fault with
       | some m => .error (.exc m)
       | none =>
         let ps := sortLe (sortKeyLe sort)
           (db.products.filter (matchesQuery category brand))
         let formatted := ps.map formatProduct
         .ok { success := true, count := formatted.length,
               products := formatted })

/-- The single-product response. -/
structure SingleProductResp where
  success : Bool
  product : FormattedProduct
deriving DecidableEq

/-- The `get_product` handler (src/server.py lines 953-1006): ObjectId parse
(400), lookup (404), the same stock-hiding formatting, plus up to ten
attached reviews. -/
def get_product (product_id : String) (fault : Option String) (db : DB) :
    Except PyError SingleProductResp :=
  if db.connected = false then .error (.http dbUnavailable)
  else
    handlerBoundary
      (match fault with
       | some m => .error (.exc m)
       | none =>
         if isValidObjectId product_id = false then
           .error (.http ⟨400, "Invalid product ID format"⟩)
         else
           match db.products.find? (fun p => p.id == product_id) with
           | none => .error (.http ⟨404, "Product not found"⟩)
           | some p =>
             let f := formatProduct p
             let reviews :=
               (db.reviews.filter (fun r => r.product_id == product_id)).take 10
             .ok { success := true,
                   product := { f with reviews := some reviews } })

/-! Shipping-rate quotation. The repository slice under src/ contains no
shipping handler; only the specification describes it, so the quotation
core is modelled from the spec and the claim about it is settled against
this model. -/

/-- Modelled from the spec: one courier option returned by the carrier
serviceability endpoint (name, quoted rate, estimated delivery). The
carrier-API client itself is the missing code. -/
structure CourierOption where
  courier_name : String
  rate : ℚ
  etd : String
deriving DecidableEq

/-- Modelled from the spec: the observable outcome of the carrier
serviceability call, covering each failure mode the spec lists — missing
credentials/token, network error or timeout, a non-200 response — and the
success case carrying the (possibly empty) courier list. -/
inductive CarrierOutcome where
  | noToken
  | networkError (msg : String)
  | httpFailure (status : Nat)
  | couriers (options : List CourierOption)
deriving DecidableEq

/-- Whether a carrier outcome is one of the spec's failure modes (an empty
courier list included). -/
def CarrierOutcome.isFailure : CarrierOutcome → Bool
  | .noToken => true
  | .networkError _ => true
  | .httpFailure _ => true
  | .couriers l => l.isEmpty

/-- The storefront shipping-quote response. -/
structure ShippingRateResp where
  success : Bool
  shipping_cost : ℚ
  courier : String
  estimated_days : String
  weight_kg : ℚ
deriving DecidableEq

/-- Modelled from the spec: the flat-fallback response returned on any
carrier failure (`success:false` with the flat fixed shipping cost). -/
def fallbackResp (fallback weight : ℚ) : ShippingRateResp :=
  { success := false, shipping_cost := fallback,
    courier := "Standard Delivery", estimated_days := "5-7 days",
    weight_kg := weight }

/-- Modelled from the spec: pick the minimum-rate courier, first minimum
winning on ties (carrier response order). -/
def bestOption (o : CourierOption) : List CourierOption → CourierOption
  | [] => o
  | x :: xs => bestOption (if x.rate < o.rate then x else o) xs

/-- Modelled from the spec: the shipping-rate quotation core (the handler is
code of this repository absent from src/). Given the flat fallback cost, the
computed weight and the outcome of the carrier call, produce the storefront
response: a success with the cheapest courier when the carrier returned
options, the flat fallback otherwise. The function is total — no failure
mode raises to the caller. -/
def quote_shipping (fallback weight : ℚ) (outcome : CarrierOutcome) :
    ShippingRateResp :=
  match outcome with
  | .couriers [] => fallbackResp fallback weight
  | .couriers (o :: os) =>
    let best := bestOption o os
    { success := true, shipping_cost := best.rate,
      courier := best.courier_name, estimated_days := best.etd,
      weight_kg := weight }
  | _ => fallbackResp fallback weight

/-! The order-lifecycle operations as a state machine over the database,
for the status-transition invariant. -/

/-- One mutating request against the orders collection. -/
inductive Op where
  | createOrderOp (order : OrderReq) (authorization : Option String)
      (now : Nat) (newId : String)
  | verifyPaymentOp (payment_data : PaymentData) (now : Nat)
  | updateStatusOp (order_id : String) (status_data : StatusData)
      (admin_token : Option String) (adminTokenEnv : String) (now : Nat)

/-- Whether an operation is the admin status update. -/
def Op.isAdminUpdate : Op → Bool
  | .updateStatusOp .. => true
  | _ => false

/-- The database after one request (the fault injection disabled). -/
def stepOp (db : DB) : Op → DB
  | .createOrderOp o a now newId => (create_order o a now newId none db).2
  | .verifyPaymentOp pd now => (verify_payment pd now none db).2
  | .updateStatusOp oid sd tok env now =>
    (update_order_status oid sd tok env now none db).2

/-- The database after a sequence of requests. -/
def runOps (db : DB) : List Op → DB
  | [] => db
  | op :: ops => runOps (stepOp db op) ops

/-- Some order with the given id is recorded as paid ("completed"). -/
def hasCompletedOrder (db : DB) (oid : String) : Prop :=
  ∃ o ∈ db.orders, o.id = oid ∧ o.status = "completed"

/-! Concrete database states and requests used to exercise the handlers. -/

/-- An empty, connected database. -/
def emptyDB : DB :=
  { connected := true, products := [], orders := [], otps := [],
    users := [], reviews := [] }

/-- A well-formed order id. -/
def oid0 : String := "aaaaaaaaaaaaaaaaaaaaaaaa"

/-- A pending order awaiting payment verification. -/
def order0 : OrderDoc :=
  { id := oid0, user_id := "u1", items := [], shipping_address := [],
    billing_address := none, payment_method := "razorpay",
    status := "pending", createdAt := 0, total_amount := 500,
    paidAt := none, updatedAt := none }

/-- A database holding the single pending order. -/
def db0 : DB := { emptyDB with orders := [order0] }

/-- A verify-payment body for that order carrying a tampered signature. -/
def pd0 : PaymentData :=
  { order_id := some oid0, razorpay_payment_id := some "pay_1",
    razorpay_signature := some "tampered-signature" }

/-- A database holding the order already verified (paid at time 3). -/
def db0paid : DB := { emptyDB with orders := [markPaid 3 order0] }

/-- A catalog product priced at 4.707 rupees. -/
def product5 : ProductDoc :=
  { id := "bbbbbbbbbbbbbbbbbbbbbbbb", name := "Trinket",
    base_price := some (4707/1000), category := some "Misc", brand := none,
    rating := 0, reviews_count := 0, createdAt := 0, stock := none,
    skus := [] }

/-- A database holding that product. -/
def db5 : DB := { emptyDB with products := [product5] }

/-- An order-create request for one 4.707-rupee item, with the caller
attempting to supply a 99-rupee price. -/
def raw5 : RawOrderReq :=
  { user_id := "u1",
    items := [⟨"bbbbbbbbbbbbbbbbbbbbbbbb", 1, none, some 99⟩],
    shipping_address := [], billing_address := none,
    payment_method := "razorpay" }

/-- A catalog product priced at 250 rupees. -/
def product500 : ProductDoc :=
  { id := "cccccccccccccccccccccccc", name := "Shawl",
    base_price := some 250, category := some "Scarves", brand := none,
    rating := 0, reviews_count := 0, createdAt := 0, stock := none,
    skus := [] }

/-- A database holding that product. -/
def db500 : DB := { emptyDB with products := [product500] }

/-- An order-create request totalling 500 rupees (two 250-rupee items),
with a caller-supplied 1-rupee price that must be ignored. -/
def raw500 : RawOrderReq :=
  { user_id := "u2",
    items := [⟨"cccccccccccccccccccccccc", 2, none, some 1⟩],
    shipping_address := [("city", "X")], billing_address := none,
    payment_method := "razorpay" }

/-- A database holding one completed (paid) order. -/
def db6 : DB := { emptyDB with orders := [markPaid 2 order0] }

/-- A catalog product whose SKUs hold 2 units in total. -/
def product9 : ProductDoc :=
  { id := "eeeeeeeeeeeeeeeeeeeeeeee", name := "Beanie",
    base_price := some 899, category := some "Accessories",
    brand := some "Besties Craft", rating := 4, reviews_count := 18,
    createdAt := 1, stock := some 50,
    skus := [⟨"WCBEANIE-001", 899, some 2, some (2/5)⟩] }

/-- A database holding that product. -/
def db9 : DB := { emptyDB with products := [product9] }

/-- A stored OTP record for the email identifier. -/
def otpRec10 : OtpDoc := ⟨1, "a@b.c", "email", "123456", 0, 600⟩

/-- A database holding that OTP record. -/
def db10 : DB := { emptyDB with otps := [otpRec10] }

/-- The verify-otp request replaying that record's code. -/
def vdata10 : OtpReq :=
  { email := some "a@b.c", phone := none, otp := some "123456" }

/-- The successful verify-otp response for `vdata10` at time 4 (fresh user
id "u42"). -/
def vresp10 : VerifyOtpResp :=
  { success := true, message := "Login successful",
    token := mkToken "u42" "a@b.c" 4,
    user := { id := some "u42", email := some "a@b.c", phone := none } }

/-- The database after that successful login. -/
def db10after : DB :=
  { emptyDB with
    otps := [],
    users := [{ id := "u42", email := some "a@b.c", phone := none,
                lastLogin := 4 }] }

/-- A send-otp request for a fresh email identifier. -/
def sdata10 : OtpReq := { email := some "x@y.z", phone := none, otp := none }

/-! Generic lemmas about the collection operations. -/

/-- An update matches nothing exactly when no element satisfies the
predicate. -/
theorem updateFirst_eq_none {α : Type} {p : α → Bool} {f : α → α}
    {l : List α} : updateFirst p f l = none ↔ ∀ a ∈ l, p a = false := by
  induction l with
  | nil => simp [updateFirst]
  | cons x xs ih =>
    by_cases h : p x
    · simp [updateFirst, h]
    · simp [updateFirst, h, Option.map_eq_none', ih]

/-- A successful update preserves the list length. -/
theorem updateFirst_length {α : Type} {p : α → Bool} {f : α → α} :
    ∀ {l l' : List α}, updateFirst p f l = some l' → l'.length = l.length := by
  intro l
  induction l with
  | nil => intro l' h; simp [updateFirst] at h
  | cons x xs ih =>
    intro l' h
    by_cases hx : p x
    · simp [updateFirst, hx] at h
      simp [← h]
    · simp [updateFirst, hx] at h
      obtain ⟨ys, hys, rfl⟩ := h
      simp [ih hys]

/-- A successful update preserves every count that the update function
itself preserves. -/
theorem updateFirst_countP {α : Type} {p : α → Bool} {f : α → α}
    (q : α → Bool) (hq : ∀ a, q (f a) = q a) :
    ∀ {l l' : List α}, updateFirst p f l = some l' →
      l'.countP q = l.countP q := by
  intro l
  induction l with
  | nil => intro l' h; simp [updateFirst] at h
  | cons x xs ih =>
    intro l' h
    by_cases hx : p x
    · simp [updateFirst, hx] at h
      simp [← h, List.countP_cons, hq]
    · simp [updateFirst, hx] at h
      obtain ⟨ys, hys, rfl⟩ := h
      simp [List.countP_cons, ih hys]

/-- Re-updating an already-updated list is the same as updating the original
list, provided the first update changes neither the match predicate nor the
effect of the second update. -/
theorem updateFirst_absorb {α : Type} {p : α → Bool} {f g : α → α}
    (hp : ∀ a, p (f a) = p a) (hg : ∀ a, g (f a) = g a) :
    ∀ {l l' : List α}, updateFirst p f l = some l' →
      updateFirst p g l' = updateFirst p g l := by
  intro l
  induction l with
  | nil => intro l' h; simp [updateFirst] at h
  | cons x xs ih =>
    intro l' h
    by_cases hx : p x
    · simp [updateFirst, hx] at h
      simp [← h, updateFirst, hp, hx, hg]
    · simp [updateFirst, hx] at h
      obtain ⟨ys, hys, rfl⟩ := h
      simp [updateFirst, hx, ih hys]

/-- When some update succeeds, any other update of the same predicate also
succeeds. -/
theorem updateFirst_some_transfer {α : Type} {p : α → Bool} {f g : α → α}
    {l l' : List α} (h : updateFirst p f l = some l') :
    ∃ l'', updateFirst p g l = some l'' := by
  cases hg : updateFirst p g l with
  | some l'' => exact ⟨l'', rfl⟩
  | none =>
    rw [updateFirst_eq_none] at hg
    rw [updateFirst_eq_none.mpr hg] at h
    cases h

/-- Each element of the original list survives a successful update, either
untouched or with the update applied. -/
theorem updateFirst_mem {α : Type} {p : α → Bool} {f : α → α} :
    ∀ {l l' : List α}, updateFirst p f l = some l' →
      ∀ b ∈ l, b ∈ l' ∨ (p b = true ∧ f b ∈ l') := by
  intro l
  induction l with
  | nil => intro l' h; simp [updateFirst] at h
  | cons x xs ih =>
    intro l' h b hb
    by_cases hx : p x
    · simp [updateFirst, hx] at h
      cases hb with
      | head => exact Or.inr ⟨hx, by simp [← h]⟩
      | tail _ hb => exact Or.inl (by rw [← h]; exact List.mem_cons_of_mem _ hb)
    · simp [updateFirst, hx] at h
      obtain ⟨ys, hys, rfl⟩ := h
      cases hb with
      | head => exact Or.inl (List.mem_cons_self _ _)
      | tail _ hb =>
        rcases ih hys b hb with h' | ⟨hpb, h'⟩
        · exact Or.inl (List.mem_cons_of_mem _ h')
        · exact Or.inr ⟨hpb, List.mem_cons_of_mem _ h'⟩

/-- A successful update touched some matching element, and its image is in
the result. -/
theorem updateFirst_result_mem {α : Type} {p : α → Bool} {f : α → α} :
    ∀ {l l' : List α}, updateFirst p f l = some l' →
      ∃ a ∈ l, p a = true ∧ f a ∈ l' := by
  intro l
  induction l with
  | nil => intro l' h; simp [updateFirst] at h
  | cons x xs ih =>
    intro l' h
    by_cases hx : p x
    · simp [updateFirst, hx] at h
      exact ⟨x, List.mem_cons_self _ _, hx, by simp [← h]⟩
    · simp [updateFirst, hx] at h
      obtain ⟨ys, hys, rfl⟩ := h
      obtain ⟨a, ha, hpa, hfa⟩ := ih hys
      exact ⟨a, List.mem_cons_of_mem _ ha, hpa, List.mem_cons_of_mem _ hfa⟩

/-- Membership is invariant under sorted insertion. -/
theorem mem_insertLe {α : Type} {le : α → α → Bool} {x a : α} :
    ∀ {l : List α}, a ∈ insertLe le x l ↔ a = x ∨ a ∈ l := by
  intro l
  induction l with
  | nil => simp [insertLe]
  | cons y ys ih =>
    by_cases h : le x y
    · simp [insertLe, h]
    · simp [insertLe, h, ih]
      tauto

/-- Membership is invariant under the embedded sort. -/
theorem mem_sortLe {α : Type} {le : α → α → Bool} {a : α} :
    ∀ {l : List α}, a ∈ sortLe le l ↔ a ∈ l := by
  intro l
  induction l with
  | nil => simp [sortLe]
  | cons x xs ih => simp [sortLe, mem_insertLe, ih]

/-- The boundary never lets a raw exception through: its result is a
success or an `HTTPException`. -/
theorem isHttpHandled_boundary {α : Type} (r : Except PyError α) :
    isHttpHandled (handlerBoundary r) = true := by
  cases r with
  | ok a => rfl
  | error e => cases e <;> rfl

/-! Evaluation and inversion lemmas for the handlers. -/

/-- Evaluation of a successful verify-payment call. -/
theorem verify_payment_eval {pd : PaymentData} {now : Nat} {db : DB}
    {oid : String} {orders : List OrderDoc}
    (hc : db.connected = true) (hid : pd.order_id = some oid)
    (hvalid : isValidObjectId oid = true)
    (hupd : updateFirst (fun o => o.id == oid) (markPaid now) db.orders
      = some orders) :
    verify_payment pd now none db =
      (.ok ⟨true, "Payment verified successfully"⟩,
       { db with orders := orders }) := by
  simp [verify_payment, verify_payment_body, hc, hid, hvalid, hupd,
    handlerBoundary]

/-- Inversion of a successful verify-payment call. -/
theorem verify_payment_ok_inv {pd : PaymentData} {now : Nat} {db : DB}
    {r : VerifyResp} {db' : DB}
    (h : verify_payment pd now none db = (.ok r, db')) :
    db.connected = true ∧
    r = ⟨true, "Payment verified successfully"⟩ ∧
    ∃ oid orders, pd.order_id = some oid ∧ isValidObjectId oid = true ∧
      updateFirst (fun o => o.id == oid) (markPaid now) db.orders
        = some orders ∧
      db' = { db with orders := orders } := by
  cases hc : db.connected with
  | false => rw [verify_payment] at h; simp [hc] at h
  | true =>
    rw [verify_payment] at h
    simp only [hc] at h
    cases hid : pd.order_id with
    | none => simp [verify_payment_body, hid, handlerBoundary] at h
    | some oid =>
      by_cases hvalid : isValidObjectId oid
      · cases hupd : updateFirst (fun o => o.id == oid) (markPaid now)
            db.orders with
        | none =>
          simp [verify_payment_body, hid, hvalid, hupd, handlerBoundary] at h
        | some orders =>
          simp [verify_payment_body, hid, hvalid, hupd, handlerBoundary] at h
          rw [hc] at h
          exact ⟨rfl, h.1.symm, oid, orders, rfl, hvalid, hupd, h.2.symm⟩
      · simp [verify_payment_body, hid, hvalid, handlerBoundary] at h

/-- Inversion of a successful order-create call. -/
theorem create_order_ok_inv {o : OrderReq} {a : Option String} {now : Nat}
    {newId : String} {db : DB} {r : CreateOrderResp} {db' : DB}
    (h : create_order o a now newId none db = (.ok r, db')) :
    db.connected = true ∧ pyTruthy a = true ∧
    ∃ total, computeTotal db.products o.items = .ok total ∧
      r = { success := true, message := "Order created successfully",
            order := mkOrderDoc o now newId total,
            razorpay_order := { id := "order_" ++ newId,
                                amount := pyInt (total * 100) } } ∧
      db' = { db with orders := db.orders ++ [mkOrderDoc o now newId total] } := by
  cases hc : db.connected with
  | false => rw [create_order] at h; simp [hc] at h
  | true =>
    rw [create_order] at h
    simp only [hc] at h
    cases ha : pyTruthy a with
    | false => simp [create_order_body, ha, handlerBoundary] at h
    | true =>
      cases ht : computeTotal db.products o.items with
      | error e =>
        cases e <;> simp [create_order_body, ha, ht, handlerBoundary] at h
      | ok total =>
        simp [create_order_body, ha, ht, handlerBoundary] at h
        rw [hc] at h
        exact ⟨rfl, rfl, total, rfl, h.1.symm, h.2.symm⟩

/-- Evaluation of a successful order-create call. -/
theorem create_order_eval {o : OrderReq} {a : Option String} {now : Nat}
    {newId : String} {db : DB} {total : ℚ}
    (hc : db.connected = true) (ha : pyTruthy a = true)
    (ht : computeTotal db.products o.items = .ok total) :
    create_order o a now newId none db =
      (.ok { success := true, message := "Order created successfully",
             order := mkOrderDoc o now newId total,
             razorpay_order := { id := "order_" ++ newId,
                                 amount := pyInt (total * 100) } },
       { db with orders := db.orders ++ [mkOrderDoc o now newId total] }) := by
  simp [create_order, create_order_body, hc, ha, ht, handlerBoundary]

/-- The 500-rupee request resolves to a 500-rupee catalog total. -/
theorem computeTotal_raw500 :
    computeTotal db500.products (OrderReq.parse raw500).items = .ok 500 := by
  simp [computeTotal, resolveItemPrice, db500, raw500, emptyDB, product500,
    OrderReq.parse, CartItem.parse, List.find?, isValidObjectId]
  norm_num

/-- The 4.707-rupee request resolves to a 4.707-rupee catalog total. -/
theorem computeTotal_raw5 :
    computeTotal db5.products (OrderReq.parse raw5).items
      = .ok (4707/1000) := by
  simp [computeTotal, resolveItemPrice, db5, raw5, emptyDB, product5,
    OrderReq.parse, CartItem.parse, List.find?, isValidObjectId]

/-- The order-create handler either leaves the database unchanged or appends
one new order document; it never mutates or removes existing orders. -/
theorem create_order_state (o : OrderReq) (a : Option String) (now : Nat)
    (newId : String) (fault : Option String) (db : DB) :
    (create_order o a now newId fault db).2 = db ∨
    ∃ d, (create_order o a now newId fault db).2
        = { db with orders := db.orders ++ [d] } := by
  rw [create_order]
  cases hc : db.connected with
  | false => simp [hc]
  | true =>
    cases fault with
    | some m => simp [create_order_body, hc]
    | none =>
      cases ha : pyTruthy a with
      | false => simp [create_order_body, ha, hc]
      | true =>
        cases ht : computeTotal db.products o.items with
        | error e => simp [create_order_body, ha, ht, hc]
        | ok total =>
          right
          exact ⟨mkOrderDoc o now newId total,
            by simp [create_order_body, ha, ht, hc]⟩

/-- The verify-payment handler either leaves the database unchanged or
applies the paid-marking update to the first matching order; it never
inserts or removes an order. -/
theorem verify_payment_state (pd : PaymentData) (now : Nat)
    (fault : Option String) (db : DB) :
    (verify_payment pd now fault db).2 = db ∨
    ∃ oid orders,
      updateFirst (fun o => o.id == oid) (markPaid now) db.orders
        = some orders ∧
      (verify_payment pd now fault db).2 = { db with orders := orders } := by
  rw [verify_payment]
  cases hc : db.connected with
  | false => simp [hc]
  | true =>
    cases fault with
    | some m => simp [verify_payment_body, hc]
    | none =>
      cases hid : pd.order_id with
      | none => simp [verify_payment_body, hid, hc]
      | some oid =>
        by_cases hvalid : isValidObjectId oid
        · cases hupd : updateFirst (fun o => o.id == oid) (markPaid now)
              db.orders with
          | none => simp [verify_payment_body, hid, hvalid, hupd, hc]
          | some orders =>
            right
            exact ⟨oid, orders, hupd,
              by simp [verify_payment_body, hid, hvalid, hupd, hc]⟩
        · simp [verify_payment_body, hid, hvalid, hc]

/-- Inversion of a successful send-otp call: the response names the resolved
identifier and the stored records for it are reduced to exactly the fresh
one. -/
theorem send_otp_ok_inv {data : OtpReq} {now : Nat} {otp : String}
    {newOid : Nat} {db : DB} {r : SendOtpResp} {db' : DB}
    (h : send_otp data now otp newOid none db = (.ok r, db')) :
    r.identifier = (otpIdentifier data).getD "" ∧
    db'.otps =
      (db.otps.filter
        (fun x => x.identifier != (otpIdentifier data).getD "")) ++
      [⟨newOid, (otpIdentifier data).getD "",
        (if pyTruthy data.email then "email" else "phone"), otp, now,
        now + 600⟩] := by
  cases hc : db.connected with
  | false => rw [send_otp] at h; simp [hc] at h
  | true =>
    rw [send_otp] at h
    simp only [hc] at h
    cases hg : (!pyTruthy data.email && !pyTruthy data.phone) with
    | true => simp [send_otp_body, hg, handlerBoundary] at h
    | false =>
      simp [send_otp_body, hg, handlerBoundary] at h
      refine ⟨?_, ?_⟩
      · rw [← h.1]
      · rw [← h.2]

/-- Evaluation of a verify-otp call that finds no stored OTP record for the
identifier: a 401 with the database untouched. -/
theorem verify_otp_notfound_eval {data : OtpReq} {now : Nat}
    {newUserId : String} {db : DB}
    (hc : db.connected = true)
    (hident : pyTruthy (otpIdentifier data) = true)
    (hotp : (pyStrip (data.otp.getD "") == "") = false)
    (hfind : db.otps.find?
        (fun x => x.identifier == (otpIdentifier data).getD "") = none) :
    verify_otp data now newUserId none db =
      (.error (.http ⟨401, "OTP not found or expired"⟩), db) := by
  simp [verify_otp, verify_otp_body, hc, hident, hotp, hfind, handlerBoundary]

/-- Inversion of a successful verify-otp call: a stored, unexpired record
for the identifier matched the entered code, and precisely that record was
deleted from the OTP collection. -/
theorem verify_otp_ok_inv {data : OtpReq} {now : Nat} {newUserId : String}
    {db : DB} {r : VerifyOtpResp} {db' : DB}
    (h : verify_otp data now newUserId none db = (.ok r, db')) :
    db.connected = true ∧ db'.connected = true ∧
    pyTruthy (otpIdentifier data) = true ∧
    (pyStrip (data.otp.getD "") == "") = false ∧
    ∃ rec, db.otps.find?
        (fun x => x.identifier == (otpIdentifier data).getD "") = some rec ∧
      (rec.expiresAt < now) = False ∧
      rec.otp = pyStrip (data.otp.getD "") ∧
      db'.otps = db.otps.eraseP (fun x => x.oid == rec.oid) := by
  cases hc : db.connected with
  | false => rw [verify_otp] at h; simp [hc] at h
  | true =>
    rw [verify_otp] at h
    simp only [hc] at h
    by_cases hident : pyTruthy (otpIdentifier data) = true
    · by_cases hotp : (pyStrip (data.otp.getD "") == "") = true
      · simp [verify_otp_body, hident, hotp, handlerBoundary] at h
      · cases hfind : db.otps.find?
            (fun x => x.identifier == (otpIdentifier data).getD "") with
        | none =>
          simp [verify_otp_body, hident, hotp, hfind, handlerBoundary] at h
        | some rec0 =>
          by_cases hexp : rec0.expiresAt < now
          · simp [verify_otp_body, hident, hotp, hfind, hexp,
              handlerBoundary] at h
          · by_cases hmatch : rec0.otp = pyStrip (data.otp.getD "")
            · simp [verify_otp_body, hident, hotp, hfind, hexp, hmatch,
                handlerBoundary] at h
              refine ⟨rfl, ?_, hident, by simp [hotp], rec0, rfl,
                by simp [hexp], hmatch, ?_⟩
              · rw [← h.2]
                exact hc
              · rw [← h.2]
            · simp [verify_otp_body, hident, hotp, hfind, hexp, hmatch,
                handlerBoundary] at h
    · simp [verify_otp_body, hident, handlerBoundary] at h

/-- Inversion of a successful product-list call: the response is exactly the
filtered, sorted, formatted catalog. -/
theorem get_products_ok_inv {cat br : Option String} {srt : String} {db : DB}
    {resp : ProductsResp} (h : get_products cat br srt none db = .ok resp) :
    resp.products =
      (sortLe (sortKeyLe srt)
        (db.products.filter (matchesQuery cat br))).map formatProduct := by
  cases hc : db.connected with
  | false => rw [get_products] at h; simp [hc] at h
  | true =>
    rw [get_products] at h
    simp only [hc] at h
    simp [handlerBoundary] at h
    rw [← h]

/-- Inversion of a successful single-product call: the response product is
the formatted catalog document with its reviews attached. -/
theorem get_product_ok_inv {pid : String} {db : DB} {resp : SingleProductResp}
    (h : get_product pid none db = .ok resp) :
    ∃ p0 ∈ db.products, resp.product =
      { formatProduct p0 with
        reviews :=
          some ((db.reviews.filter (fun r => r.product_id == pid)).take 10) } := by
  cases hc : db.connected with
  | false => rw [get_product] at h; simp [hc] at h
  | true =>
    rw [get_product] at h
    simp only [hc] at h
    by_cases hvalid : isValidObjectId pid
    · cases hfind : db.products.find? (fun p => p.id == pid) with
      | none => simp [hvalid, hfind, handlerBoundary] at h
      | some p0 =>
        simp [hvalid, hfind, handlerBoundary] at h
        refine ⟨p0, List.mem_of_find?_eq_some hfind, ?_⟩
        rw [← h]
    · simp [hvalid, handlerBoundary] at h

/-- Inversion of a successful item resolution: the product was found and
the resolved price is its catalog unit price times the quantity. -/
theorem resolveItemPrice_ok {ps : List ProductDoc} {it : CartItem} {q : ℚ}
    (h : resolveItemPrice ps it = .ok q) :
    ∃ p, ps.find? (fun p => p.id == it.product_id) = some p ∧
      q = (p.base_price.getD 0) * (it.quantity : ℚ) := by
  unfold resolveItemPrice at h
  by_cases hv : isValidObjectId it.product_id
  · rw [if_pos hv] at h
    cases hf : ps.find? (fun p => p.id == it.product_id) with
    | none => rw [hf] at h; cases h
    | some p =>
      rw [hf] at h
      cases h
      exact ⟨p, rfl, rfl⟩
  · rw [if_neg hv] at h; cases h

/-- A successfully computed order total is the catalog-side total. -/
theorem computeTotal_ok {ps : List ProductDoc} :
    ∀ {items : List CartItem} {t : ℚ},
      computeTotal ps items = .ok t → t = catalogTotal ps items := by
  intro items
  induction items with
  | nil =>
    intro t h
    rw [computeTotal] at h
    cases h
    rfl
  | cons it rest ih =>
    intro t h
    rw [computeTotal] at h
    cases hr : resolveItemPrice ps it with
    | error e => rw [hr] at h; cases h
    | ok q =>
      rw [hr] at h
      cases ht : computeTotal ps rest with
      | error e => rw [ht] at h; cases h
      | ok t' =>
        rw [ht] at h
        cases h
        obtain ⟨p, hp, rfl⟩ := resolveItemPrice_ok hr
        rw [catalogTotal, hp, ih ht]

/-- The stock status says "in stock" exactly for a positive count. -/
theorem get_stock_status_in_stock (n : Int) :
    (get_stock_status n).in_stock = true ↔ 0 < n := by
  unfold get_stock_status
  split_ifs with h1 h2 <;> simp <;> omega

/-- The stock status says "Low Stock" exactly for a count between 1 and 3. -/
theorem get_stock_status_low (n : Int) :
    (get_stock_status n).status = "Low Stock" ↔ (1 ≤ n ∧ n ≤ 3) := by
  unfold get_stock_status
  split_ifs with h1 h2 <;> simp <;> omega

/-- The stock status says "Out of Stock" exactly for a non-positive count. -/
theorem get_stock_status_out (n : Int) :
    (get_stock_status n).status = "Out of Stock" ↔ n ≤ 0 := by
  unfold get_stock_status
  split_ifs with h1 h2 <;> simp <;> omega

/-- The formatted product carries the status derived from the summed SKU
stocks. -/
theorem formatProduct_stock_status (p0 : ProductDoc) :
    (formatProduct p0).stock_status = get_stock_status (totalStock p0) := rfl

/-- The formatted product's `in_stock` mirror field. -/
theorem formatProduct_in_stock (p0 : ProductDoc) :
    (formatProduct p0).in_stock
      = (get_stock_status (totalStock p0)).in_stock := rfl

/-- The formatted product exposes no product-level stock count. -/
theorem formatProduct_stock (p0 : ProductDoc) :
    (formatProduct p0).stock = none := rfl

/-- The formatted product exposes no SKU-level stock count. -/
theorem formatProduct_sku_stock (p0 : ProductDoc) :
    ∀ s ∈ (formatProduct p0).skus, s.stock = none := by
  intro s hs
  simp only [formatProduct, List.mem_map] at hs
  obtain ⟨s0, _, rfl⟩ := hs
  rfl

/-- After deleting (by record id) the record that a find-by-identifier
located, no record for that identifier remains — provided record ids are
unique and the identifier had at most one record. -/
theorem find?_eraseP_of_unique {l : List OtpDoc} {rec : OtpDoc}
    {ident : String}
    (hnodup : (l.map OtpDoc.oid).Nodup)
    (huniq : l.countP (fun x => x.identifier == ident) ≤ 1)
    (hfind : l.find? (fun x => x.identifier == ident) = some rec) :
    (l.eraseP (fun x => x.oid == rec.oid)).find?
      (fun x => x.identifier == ident) = none := by
  have hrec_mem : rec ∈ l := List.mem_of_find?_eq_some hfind
  have hrec_match : (rec.identifier == ident) = true := by
    have := List.find?_some hfind
    simpa using this
  obtain ⟨a, l1, l2, ha1, ha2, hdecomp, herase⟩ :=
    List.exists_of_eraseP (p := fun x => x.oid == rec.oid) hrec_mem (by simp)
  have ha_mem : a ∈ l := by
    rw [hdecomp]
    exact List.mem_append_right _ (List.mem_cons_self _ _)
  have haeq : a = rec :=
    List.inj_on_of_nodup_map hnodup ha_mem hrec_mem (by simpa using ha2)
  subst haeq
  rw [herase, List.find?_eq_none]
  intro x hx hmatch
  have hcount : l.countP (fun x => x.identifier == ident) =
      l1.countP (fun x => x.identifier == ident) +
      l2.countP (fun x => x.identifier == ident) + 1 := by
    rw [hdecomp, List.countP_append, List.countP_cons]
    simp [hrec_match]
    omega
  rcases List.mem_append.mp hx with hx1 | hx2
  · have hpos : 0 < l1.countP (fun x => x.identifier == ident) :=
      List.countP_pos_iff.mpr ⟨x, hx1, hmatch⟩
    omega
  · have hpos : 0 < l2.countP (fun x => x.identifier == ident) :=
      List.countP_pos_iff.mpr ⟨x, hx2, hmatch⟩
    omega

/-- One non-admin operation preserves every paid order: order creation only
appends, and payment verification only re-marks an order as paid. -/
theorem stepOp_preserves_completed {db : DB} {op : Op}
    (hop : op.isAdminUpdate = false) {oid : String}
    (h : hasCompletedOrder db oid) : hasCompletedOrder (stepOp db op) oid := by
  obtain ⟨o, hmem, hid, hstatus⟩ := h
  cases op with
  | createOrderOp ord a now newId =>
    rcases create_order_state ord a now newId none db with heq | ⟨d, heq⟩
    · exact ⟨o, by simp only [stepOp, heq]; exact hmem, hid, hstatus⟩
    · refine ⟨o, ?_, hid, hstatus⟩
      simp only [stepOp, heq]
      exact List.mem_append_left _ hmem
  | verifyPaymentOp pd now =>
    rcases verify_payment_state pd now none db with heq | ⟨oid', orders, hupd, heq⟩
    · exact ⟨o, by simp only [stepOp, heq]; exact hmem, hid, hstatus⟩
    · rcases updateFirst_mem hupd o hmem with hmem' | ⟨_, hmem'⟩
      · exact ⟨o, by simp only [stepOp, heq]; exact hmem', hid, hstatus⟩
      · exact ⟨markPaid now o, by simp only [stepOp, heq]; exact hmem',
          hid, rfl⟩
  | updateStatusOp a b c d e => cases hop

/-! The claims. -/

/-- Claim C1: the claim states that a verify-payment request whose gateway
signature differs from the HMAC-SHA256 of order and payment id fails with a
signature-verification error and leaves the orders collection unchanged.
The handler computes no HMAC and never reads the signature: for every
signature and payment id — matching or tampered — the call on a database
holding the pending order succeeds and marks that order completed, changing
the orders collection. This exhibits the divergence of the code from the
claim at the concrete failing input. -/
theorem claim_c1_no_signature_check (sig pay : Option String) :
    (verify_payment ⟨some oid0, pay, sig⟩ 9 none db0).1
      = .ok ⟨true, "Payment verified successfully"⟩ ∧
    (verify_payment ⟨some oid0, pay, sig⟩ 9 none db0).2.orders
      = [markPaid 9 order0] ∧
    db0.orders = [order0] ∧
    order0.status = "pending" ∧ (markPaid 9 order0).status = "completed" :=
  ⟨rfl, rfl, rfl, rfl, rfl⟩

/-- Claim C2: repeated payment verification of the same order id never
creates a duplicate order and yields a stable result. After a first
successful call, a second call returns the very same success response, its
final state is exactly what a single verification at the second timestamp
would have produced (the replay is absorbed), and order counts — per order
id and in total — are unchanged, so exactly one order exists for the id
afterwards whenever exactly one existed before. -/
theorem claim_c2_idempotent (pd : PaymentData) (t1 t2 : Nat) (db : DB)
    (r1 : VerifyResp) (db1 : DB)
    (h : verify_payment pd t1 none db = (.ok r1, db1)) :
    (verify_payment pd t2 none db1).1 = .ok r1 ∧
    (verify_payment pd t2 none db1).2 = (verify_payment pd t2 none db).2 ∧
    (∀ s, (verify_payment pd t2 none db1).2.orders.countP
        (fun o => o.id == s) = db.orders.countP (fun o => o.id == s)) ∧
    (verify_payment pd t2 none db1).2.orders.length = db.orders.length := by
  obtain ⟨hc, hr, oid, orders, hid, hvalid, hupd, hdb⟩ :=
    verify_payment_ok_inv h
  subst hdb
  have hp : ∀ o : OrderDoc, ((markPaid t1 o).id == oid) = (o.id == oid) :=
    fun o => rfl
  have hg : ∀ o : OrderDoc, markPaid t2 (markPaid t1 o) = markPaid t2 o :=
    fun o => rfl
  have habs := updateFirst_absorb hp hg hupd (g := markPaid t2)
  obtain ⟨l2, hl2⟩ := updateFirst_some_transfer (g := markPaid t2) hupd
  have hl2' : updateFirst (fun o => o.id == oid) (markPaid t2) orders
      = some l2 := by rw [habs, hl2]
  have heval1 := @verify_payment_eval pd t2 { db with orders := orders }
    oid l2 hc hid hvalid hl2'
  have heval2 := @verify_payment_eval pd t2 db oid l2 hc hid hvalid hl2
  refine ⟨?_, ?_, ?_, ?_⟩
  · rw [heval1, hr]
  · rw [heval1, heval2]
  · intro s
    have c2 := @updateFirst_countP OrderDoc (fun o => o.id == oid)
      (markPaid t2) (fun o => o.id == s) (fun o => rfl) orders l2 hl2'
    have c1 := @updateFirst_countP OrderDoc (fun o => o.id == oid)
      (markPaid t1) (fun o => o.id == s) (fun o => rfl) db.orders orders hupd
    rw [heval1]
    show l2.countP (fun o => o.id == s) = db.orders.countP (fun o => o.id == s)
    rw [c2, c1]
  · have c2 := updateFirst_length hl2'
    have c1 := updateFirst_length hupd
    rw [heval1]
    show l2.length = db.orders.length
    rw [c2, c1]

/-- Witness for claim C2 at a concrete input: the order of `db0` verified at
time 3 (state `db0paid`) and re-verified at time 5. -/
theorem claim_c2_witness :
    (verify_payment pd0 5 none db0paid).1
        = .ok ⟨true, "Payment verified successfully"⟩ ∧
    (verify_payment pd0 5 none db0paid).2.orders.countP
        (fun o => o.id == oid0) = db0.orders.countP (fun o => o.id == oid0) ∧
    (verify_payment pd0 5 none db0paid).2.orders.length
        = db0.orders.length := by
  have h := claim_c2_idempotent pd0 3 5 db0
    ⟨true, "Payment verified successfully"⟩ db0paid rfl
  exact ⟨h.1, h.2.2.1 oid0, h.2.2.2⟩

/-- Claim C3 counterexample: at a concrete successful verify-payment call
there is no staged PendingPayment at all — the handler re-marks the order
created earlier, sets its status to "completed" rather than "confirmed",
inserts nothing, and its response is only a success message carrying no
order identifier. -/
theorem claim_c3_counterexample :
    verify_payment pd0 3 none db0
      = (.ok ⟨true, "Payment verified successfully"⟩, db0paid) ∧
    db0paid.orders.map OrderDoc.status = ["completed"] ∧
    (("completed" : String) == "confirmed") = false ∧
    db0paid.orders.length = db0.orders.length :=
  ⟨rfl, rfl, by decide, rfl⟩

/-- Claim C3 amended: a successful verify-payment call updates the existing
order in place — its status becomes "completed" with the paid-at time
stamped — no staging record exists to delete (the other collections are
untouched and no order is inserted), and the response is only a success
message, returning no order identifier. -/
theorem claim_c3_amended (pd : PaymentData) (now : Nat) (db : DB)
    (r : VerifyResp) (db' : DB)
    (h : verify_payment pd now none db = (.ok r, db')) :
    r = ⟨true, "Payment verified successfully"⟩ ∧
    db'.orders.length = db.orders.length ∧
    db'.otps = db.otps ∧ db'.users = db.users ∧ db'.products = db.products ∧
    ∃ oid, pd.order_id = some oid ∧
      ∃ o ∈ db'.orders, o.id = oid ∧ o.status = "completed" ∧
        o.paidAt = some now := by
  obtain ⟨hc, hr, oid, orders, hid, hvalid, hupd, hdb⟩ :=
    verify_payment_ok_inv h
  subst hdb
  refine ⟨hr, updateFirst_length hupd, rfl, rfl, rfl, oid, hid, ?_⟩
  obtain ⟨a, ha, hpa, hfa⟩ := updateFirst_result_mem hupd
  exact ⟨markPaid now a, hfa, by simpa using hpa, rfl, rfl⟩

/-- Witness for the amended claim C3 at the concrete call of the
counterexample. -/
theorem claim_c3_witness :
    (⟨true, "Payment verified successfully"⟩ : VerifyResp)
        = ⟨true, "Payment verified successfully"⟩ ∧
    db0paid.orders.length = db0.orders.length ∧
    db0paid.otps = db0.otps ∧ db0paid.users = db0.users ∧
    db0paid.products = db0.products ∧
    ∃ oid, pd0.order_id = some oid ∧
      ∃ o ∈ db0paid.orders, o.id = oid ∧ o.status = "completed" ∧
        o.paidAt = some 3 :=
  claim_c3_amended pd0 3 db0 ⟨true, "Payment verified successfully"⟩
    db0paid rfl

/-- Claim C4: the price used for every persisted line item is the current
catalog price at staging time, never the caller-supplied one. On every
successful order-create call the stored total is the sum over items of the
catalog unit price times quantity, and rewriting all the caller-supplied
prices of the raw request leaves the parsed request — hence the whole call —
unchanged, because the pydantic cart-item model has no price field. -/
theorem claim_c4_catalog_prices (raw : RawOrderReq)
    (f : RawCartItem → Option ℚ) (auth : Option String) (now : Nat)
    (newId : String) (db : DB) (r : CreateOrderResp) (db' : DB)
    (h : create_order (OrderReq.parse raw) auth now newId none db
      = (.ok r, db')) :
    r.order.total_amount
        = catalogTotal db.products (OrderReq.parse raw).items ∧
    OrderReq.parse (raw.setPrices f) = OrderReq.parse raw := by
  obtain ⟨hc, ha, total, ht, hr, hdb⟩ := create_order_ok_inv h
  constructor
  · rw [hr]
    exact computeTotal_ok ht
  · simp only [OrderReq.parse, RawOrderReq.setPrices, List.map_map]
    rfl

/-- Witness for claim C4: the 500-rupee request `raw500`, whose caller
supplies a 1-rupee price (and a 9-rupee rewrite), still stages the
catalog-priced total. -/
theorem claim_c4_witness :
    (500 : ℚ) = catalogTotal db500.products (OrderReq.parse raw500).items ∧
    OrderReq.parse (raw500.setPrices (fun _ => some 9))
        = OrderReq.parse raw500 :=
  claim_c4_catalog_prices raw500 (fun _ => some 9) (some "tok") 7
    "dddddddddddddddddddddddd" db500 _ _
    (create_order_eval rfl rfl computeTotal_raw500)

/-- Claim C5 counterexample: the claim says the gateway amount is the total
times 100, rounded. The code computes `int(total * 100)`, which truncates:
the order for `raw5` totals 4.707 rupees and yields gateway amount 470
paise, whereas rounding 470.7 gives 471. -/
theorem claim_c5_counterexample :
    create_order (OrderReq.parse raw5) (some "tok") 0
        "ffffffffffffffffffffffff" none db5
      = (.ok { success := true, message := "Order created successfully",
               order := mkOrderDoc (OrderReq.parse raw5) 0
                 "ffffffffffffffffffffffff" (4707/1000),
               razorpay_order := { id := "order_" ++ "ffffffffffffffffffffffff",
                                   amount := pyInt ((4707/1000 : ℚ) * 100) } },
         { db5 with orders := [mkOrderDoc (OrderReq.parse raw5) 0
             "ffffffffffffffffffffffff" (4707/1000)] }) ∧
    pyInt ((4707/1000 : ℚ) * 100) = 470 ∧
    round ((4707/1000 : ℚ) * 100) = 471 ∧
    ((470 : Int) == 471) = false := by
  refine ⟨?_, by norm_num [pyInt], by norm_num [round_eq], by decide⟩
  exact create_order_eval rfl rfl computeTotal_raw5

/-- Claim C5 amended: for every successful order-create call the gateway
amount equals the total times 100 truncated toward zero (Python `int()`),
not rounded; in particular a total of 500 rupees yields amount 50000. -/
theorem claim_c5_amended (o : OrderReq) (a : Option String) (now : Nat)
    (newId : String) (db : DB) (r : CreateOrderResp) (db' : DB)
    (h : create_order o a now newId none db = (.ok r, db')) :
    r.razorpay_order.amount = pyInt (r.order.total_amount * 100) ∧
    (r.order.total_amount = 500 → r.razorpay_order.amount = 50000) := by
  obtain ⟨hc, ha, total, ht, hr, hdb⟩ := create_order_ok_inv h
  subst hr
  refine ⟨rfl, ?_⟩
  intro h500
  have htot : total = (500 : ℚ) := h500
  show pyInt (total * 100) = 50000
  rw [htot]
  norm_num [pyInt]

/-- Witness for the amended claim C5 at the concrete 500-rupee order. -/
theorem claim_c5_witness :
    pyInt ((500 : ℚ) * 100) = pyInt ((500 : ℚ) * 100) ∧
    ((500 : ℚ) = 500 → pyInt ((500 : ℚ) * 100) = 50000) :=
  claim_c5_amended (OrderReq.parse raw500) (some "tok") 7
    "dddddddddddddddddddddddd" db500 _ _
    (create_order_eval rfl rfl computeTotal_raw500)

/-- Claim C6 counterexample: the claim says that no reachable operation
sequence takes an order from paid back to pending. The admin status-update
endpoint writes any caller-supplied status unvalidated: starting from a
database whose only order is completed (paid), a single admin update with
status "pending" and the correct token takes it back to "pending". -/
theorem claim_c6_counterexample :
    db6.orders.map OrderDoc.status = ["completed"] ∧
    (runOps db6 [Op.updateStatusOp oid0 ⟨some "pending"⟩ (some "tkn") "tkn"
        5]).orders.map OrderDoc.status = ["pending"] :=
  ⟨rfl, rfl⟩

/-- Claim C6 amended: along every sequence of order-creation and
payment-verification operations an order once marked "completed" (paid)
keeps that status — creation only appends and verification only re-marks as
paid; only the admin status-update operation, which writes an arbitrary
caller-supplied status, can move it (including back to pending), so the
invariant holds for all sequences avoiding that operation. -/
theorem claim_c6_amended (ops : List Op) (db : DB) (oid : String)
    (hops : ∀ op ∈ ops, op.isAdminUpdate = false)
    (h : hasCompletedOrder db oid) :
    hasCompletedOrder (runOps db ops) oid := by
  induction ops generalizing db with
  | nil => exact h
  | cons op ops ih =>
    rw [runOps]
    exact ih _ (fun x hx => hops x (List.mem_cons_of_mem _ hx))
      (stepOp_preserves_completed (hops op (List.mem_cons_self _ _)) h)

/-- Witness for the amended claim C6: the paid order of `db6` stays
completed across a creation and a replayed verification. -/
theorem claim_c6_witness :
    hasCompletedOrder (runOps db6 [Op.verifyPaymentOp pd0 11]) oid0 :=
  claim_c6_amended [Op.verifyPaymentOp pd0 11] db6 oid0
    (by intro op hop; simp at hop; rw [hop]; rfl)
    ⟨markPaid 2 order0, List.mem_cons_self _ _, rfl, rfl⟩

/-- Claim C7: shipping-rate quotation never surfaces a carrier failure.
`quote_shipping` is a total function into responses — no failure mode
raises — and on every failure mode (missing token, network error or
timeout, non-200 response, empty courier list) it returns the flat
fallback response: success false with the flat fixed shipping cost. -/
theorem claim_c7_fallback (fallback weight : ℚ) (outcome : CarrierOutcome)
    (h : outcome.isFailure = true) :
    quote_shipping fallback weight outcome = fallbackResp fallback weight ∧
    (quote_shipping fallback weight outcome).success = false ∧
    (quote_shipping fallback weight outcome).shipping_cost = fallback := by
  cases outcome with
  | noToken => exact ⟨rfl, rfl, rfl⟩
  | networkError m => exact ⟨rfl, rfl, rfl⟩
  | httpFailure s => exact ⟨rfl, rfl, rfl⟩
  | couriers l =>
    cases l with
    | nil => exact ⟨rfl, rfl, rfl⟩
    | cons o os => simp [CarrierOutcome.isFailure] at h

/-- Witness for claim C7 at the missing-token failure with a fallback cost
of 100 rupees. -/
theorem claim_c7_witness :
    quote_shipping 100 2 .noToken = fallbackResp 100 2 ∧
    (quote_shipping 100 2 .noToken).success = false ∧
    (quote_shipping 100 2 .noToken).shipping_cost = 100 :=
  claim_c7_fallback 100 2 .noToken rfl

/-- Claim C8: every embedded handler catches every internal error at its
boundary and translates it into an HTTPException-style structured error
with a status code and detail message; no raw exception — here injected via
`fault` at an arbitrary point of the try-block — escapes a handler. -/
theorem claim_c8_handler_boundary (db : DB) (fault : Option String)
    (o : OrderReq) (auth : Option String) (now : Nat) (newId : String)
    (pd : PaymentData) (oid : String) (sd : StatusData)
    (tok : Option String) (env : String) (odata : OtpReq) (otp : String)
    (ooid : Nat) (uid : String) (cat br : Option String) (srt : String)
    (pid : String) :
    isHttpHandled (create_order o auth now newId fault db).1 = true ∧
    isHttpHandled (verify_payment pd now fault db).1 = true ∧
    isHttpHandled (update_order_status oid sd tok env now fault db).1
        = true ∧
    isHttpHandled (send_otp odata now otp ooid fault db).1 = true ∧
    isHttpHandled (verify_otp odata now uid fault db).1 = true ∧
    isHttpHandled (get_products cat br srt fault db) = true ∧
    isHttpHandled (get_product pid fault db) = true := by
  cases hc : db.connected with
  | false =>
    refine ⟨?_, ?_, ?_, ?_, ?_, ?_, ?_⟩ <;>
      simp [create_order, verify_payment, update_order_status, send_otp,
        verify_otp, get_products, get_product, hc, isHttpHandled]
  | true =>
    refine ⟨?_, ?_, ?_, ?_, ?_, ?_, ?_⟩ <;>
      simp [create_order, verify_payment, update_order_status, send_otp,
        verify_otp, get_products, get_product, hc, isHttpHandled_boundary]

/-- Claim C9: the public catalog endpoints never expose an exact stock
count. Every product in a successful product-list response, and the product
of a successful single-product response, carries no product-level stock and
no SKU-level stock, only a derived status computed from the summed SKU
stocks of the catalog document: in stock exactly when the sum is positive,
"Low Stock" exactly when it is between 1 and 3 inclusive, and
"Out of Stock" exactly when it is 0 or less. -/
theorem claim_c9_stock_hidden (cat br : Option String) (srt : String)
    (db : DB) (resp : ProductsResp)
    (hlist : get_products cat br srt none db = .ok resp)
    (p : FormattedProduct) (hp : p ∈ resp.products)
    (pid : String) (single : SingleProductResp)
    (hone : get_product pid none db = .ok single) :
    (p.stock = none ∧ (∀ s ∈ p.skus, s.stock = none) ∧
     ∃ p0 ∈ db.products, p = formatProduct p0 ∧
       (p.in_stock = true ↔ 0 < totalStock p0) ∧
       (p.stock_status.in_stock = true ↔ 0 < totalStock p0) ∧
       (p.stock_status.status = "Low Stock" ↔
         (1 ≤ totalStock p0 ∧ totalStock p0 ≤ 3)) ∧
       (p.stock_status.status = "Out of Stock" ↔ totalStock p0 ≤ 0)) ∧
    (single.product.stock = none ∧
     (∀ s ∈ single.product.skus, s.stock = none) ∧
     ∃ p0 ∈ db.products,
       single.product.stock_status = get_stock_status (totalStock p0) ∧
       (single.product.in_stock = true ↔ 0 < totalStock p0) ∧
       (single.product.stock_status.status = "Low Stock" ↔
         (1 ≤ totalStock p0 ∧ totalStock p0 ≤ 3)) ∧
       (single.product.stock_status.status = "Out of Stock" ↔
         totalStock p0 ≤ 0)) := by
  constructor
  · have hprod := get_products_ok_inv hlist
    rw [hprod] at hp
    obtain ⟨p0, hp0mem, rfl⟩ := List.mem_map.mp hp
    have hp0 : p0 ∈ db.products :=
      (List.mem_filter.mp (mem_sortLe.mp hp0mem)).1
    refine ⟨formatProduct_stock p0, formatProduct_sku_stock p0, p0, hp0,
      rfl, ?_, ?_, ?_, ?_⟩
    · rw [formatProduct_in_stock]; exact get_stock_status_in_stock _
    · rw [formatProduct_stock_status]; exact get_stock_status_in_stock _
    · rw [formatProduct_stock_status]; exact get_stock_status_low _
    · rw [formatProduct_stock_status]; exact get_stock_status_out _
  · obtain ⟨p0, hp0, hprod⟩ := get_product_ok_inv hone
    rw [hprod]
    refine ⟨formatProduct_stock p0, formatProduct_sku_stock p0, p0, hp0,
      formatProduct_stock_status p0, ?_, ?_, ?_⟩
    · rw [formatProduct_in_stock]; exact get_stock_status_in_stock _
    · rw [formatProduct_stock_status]; exact get_stock_status_low _
    · rw [formatProduct_stock_status]; exact get_stock_status_out _

/-- Witness for claim C9: the catalog of `db9` (one product whose SKUs hold
2 units), listed and fetched individually. -/
theorem claim_c9_witness :
    ((formatProduct product9).stock = none ∧
     (∀ s ∈ (formatProduct product9).skus, s.stock = none) ∧
     ∃ p0 ∈ db9.products, formatProduct product9 = formatProduct p0 ∧
       ((formatProduct product9).in_stock = true ↔ 0 < totalStock p0) ∧
       ((formatProduct product9).stock_status.in_stock = true ↔
         0 < totalStock p0) ∧
       ((formatProduct product9).stock_status.status = "Low Stock" ↔
         (1 ≤ totalStock p0 ∧ totalStock p0 ≤ 3)) ∧
       ((formatProduct product9).stock_status.status = "Out of Stock" ↔
         totalStock p0 ≤ 0)) ∧
    (({ formatProduct product9 with
        reviews := some [] } : FormattedProduct).stock = none ∧
     (∀ s ∈ ({ formatProduct product9 with
        reviews := some [] } : FormattedProduct).skus, s.stock = none) ∧
     ∃ p0 ∈ db9.products,
       ({ formatProduct product9 with
          reviews := some [] } : FormattedProduct).stock_status
           = get_stock_status (totalStock p0) ∧
       (({ formatProduct product9 with
          reviews := some [] } : FormattedProduct).in_stock = true ↔
         0 < totalStock p0) ∧
       (({ formatProduct product9 with
          reviews := some [] } : FormattedProduct).stock_status.status
           = "Low Stock" ↔ (1 ≤ totalStock p0 ∧ totalStock p0 ≤ 3)) ∧
       (({ formatProduct product9 with
          reviews := some [] } : FormattedProduct).stock_status.status
           = "Out of Stock" ↔ totalStock p0 ≤ 0)) :=
  claim_c9_stock_hidden none none "newest" db9
    ⟨true, 1, [formatProduct product9]⟩ rfl (formatProduct product9)
    (List.mem_cons_self _ _) "eeeeeeeeeeeeeeeeeeeeeeee"
    ⟨true, { formatProduct product9 with reviews := some [] }⟩ rfl

/-- Claim C10: OTPs are single-use and unique per identifier. Issuing a new
OTP deletes every previously stored record for the identifier, leaving
exactly one; and after a successful verification — which deletes the
matched record — replaying the same request returns the 401 "OTP not found
or expired" error and leaves the database (users included, so no login)
untouched, provided record ids are unique and the identifier had at most
one stored record, as send-otp guarantees. -/
theorem claim_c10_otp_single_use
    (sdata : OtpReq) (snow : Nat) (sotp : String) (soid : Nat) (sdb : DB)
    (sr : SendOtpResp) (sdb' : DB)
    (hsend : send_otp sdata snow sotp soid none sdb = (.ok sr, sdb'))
    (vdata : OtpReq) (vnow vnow2 : Nat) (vid vid2 : String) (vdb : DB)
    (vr : VerifyOtpResp) (vdb1 : DB)
    (hnodup : (vdb.otps.map OtpDoc.oid).Nodup)
    (huniq : vdb.otps.countP
        (fun x => x.identifier == (otpIdentifier vdata).getD "") ≤ 1)
    (hverify : verify_otp vdata vnow vid none vdb = (.ok vr, vdb1)) :
    sdb'.otps.countP (fun x => x.identifier == sr.identifier) = 1 ∧
    verify_otp vdata vnow2 vid2 none vdb1 =
      (.error (.http ⟨401, "OTP not found or expired"⟩), vdb1) := by
  constructor
  · obtain ⟨hid, hotps⟩ := send_otp_ok_inv hsend
    rw [hotps, hid, List.countP_append]
    have hz : (sdb.otps.filter
        (fun x => x.identifier != (otpIdentifier sdata).getD "")).countP
        (fun x => x.identifier == (otpIdentifier sdata).getD "") = 0 := by
      rw [List.countP_eq_zero]
      intro a ha
      have hne := (List.mem_filter.mp ha).2
      simp at hne ⊢
      exact hne
    rw [hz]
    simp [List.countP_cons]
  · obtain ⟨hc, hc1, hident, hotp, rec, hfind, hexp, hmatch, hotps1⟩ :=
      verify_otp_ok_inv hverify
    have hnone : vdb1.otps.find?
        (fun x => x.identifier == (otpIdentifier vdata).getD "") = none := by
      rw [hotps1]
      exact find?_eraseP_of_unique hnodup huniq hfind
    exact verify_otp_notfound_eval hc1 hident hotp hnone

/-- Witness for claim C10: a fresh OTP issued for one identifier, and a
replayed verification of the OTP of `db10`. -/
theorem claim_c10_witness :
    (({ emptyDB with
        otps := [⟨7, "x@y.z", "email", "654321", 5, 605⟩] } : DB).otps.countP
      (fun x => x.identifier ==
        (⟨true, "OTP sent to your email", "x@y.z"⟩ : SendOtpResp).identifier)
      = 1) ∧
    verify_otp vdata10 9 "u43" none db10after =
      (.error (.http ⟨401, "OTP not found or expired"⟩), db10after) :=
  claim_c10_otp_single_use sdata10 5 "654321" 7 emptyDB
    ⟨true, "OTP sent to your email", "x@y.z"⟩
    { emptyDB with otps := [⟨7, "x@y.z", "email", "654321", 5, 605⟩] } rfl
    vdata10 4 9 "u42" "u43" db10 vresp10 db10after (by decide)
    (by decide) rfl

end BestiesCraft
